import Mathlib

/-!
Verification of the gatekeeper host-lifecycle gate
(`gatekeeper/gatekeeper.py`): the reachability probe, the Wake-on-LAN
trigger, the two shutdown strategies (Proxmox token API, SSH key), and the
controller branching in `main`.

The Python source is shallowly embedded: every external effect
(`socket.create_connection`, `requests.post`, `subprocess.run`, the
filesystem operations of the temporary key file, the magic-packet send) is
represented by an explicit outcome parameter, and each embedded function
returns, besides the value the source returns, a trace of the effects it
performed (connection attempts, HTTP requests, process invocations, file
events, packet sends) and the UI messages it emits.  Python's exception
dispatch (`except` clauses match by class, in order) is embedded through a
small model of the exception class hierarchy.
-/

/-- Embedded Python exception values, covering the exception classes the
source can meet: the OSError family raised by `socket.create_connection`
(`socket.timeout` is an alias of `TimeoutError`), the subprocess family
raised by `subprocess.run` (`CalledProcessError` and `TimeoutExpired`, both
subclasses of `SubprocessError`, which is not an `OSError`), the
`UnicodeDecodeError` raised by `bytes.decode`, and arbitrary other
exceptions. -/
inductive PyExc where
  | fileNotFoundError (msg : String)
  | connectionRefusedError (msg : String)
  | timeoutError (msg : String)
  | gaierror (msg : String)
  | otherOSError (msg : String)
  | calledProcessError (msg : String)
  | timeoutExpired (msg : String)
  | unicodeDecodeError (msg : String)
  | valueError (msg : String)
  | otherException (msg : String)
deriving DecidableEq

/-- Exception classes that appear in `except` clauses of the source. -/
inductive PyClass where
  | osError
  | fileNotFound
  | connectionRefused
  | timeoutCls
  | calledProcess
  | exceptionCls
deriving DecidableEq

/-- The CPython class hierarchy restricted to the classes above:
`FileNotFoundError`, `ConnectionRefusedError`, `TimeoutError`
(= `socket.timeout`) and `socket.gaierror` are subclasses of `OSError`;
`subprocess.CalledProcessError` and `subprocess.TimeoutExpired` are
subclasses of `SubprocessError`, hence of `Exception` but not of `OSError`
and not of `TimeoutError`; `UnicodeDecodeError` is a `ValueError`.
Everything is an instance of `Exception`. -/
def isInstance (e : PyExc) (c : PyClass) : Bool :=
  match c with
  | .exceptionCls => true
  | .osError =>
    match e with
    | .fileNotFoundError _ | .connectionRefusedError _ | .timeoutError _
    | .gaierror _ | .otherOSError _ => true
    | _ => false
  | .fileNotFound =>
    match e with
    | .fileNotFoundError _ => true
    | _ => false
  | .connectionRefused =>
    match e with
    | .connectionRefusedError _ => true
    | _ => false
  | .timeoutCls =>
    match e with
    | .timeoutError _ => true
    | _ => false
  | .calledProcess =>
    match e with
    | .calledProcessError _ => true
    | _ => false

/-- The `str(...)` rendering of an embedded exception, as interpolated by
the source's f-strings. -/
def PyExc.msg : PyExc → String
  | .fileNotFoundError m | .connectionRefusedError m | .timeoutError m
  | .gaierror m | .otherOSError m | .calledProcessError m
  | .timeoutExpired m | .unicodeDecodeError m | .valueError m
  | .otherException m => m

/-- Outcome of one `socket.create_connection((ip, port), timeout=timeout)`
call: either the TCP handshake completed within the timeout, or the call
raised an exception. -/
inductive ConnOutcome where
  | connected
  | raises (e : PyExc)
deriving DecidableEq

/-- Record of one connection attempt made by the probe. -/
structure ConnAttempt where
  ip : String
  port : Nat
  timeout : ℚ
deriving DecidableEq

/-- Embedding of `is_server_up`: one `create_connection` attempt inside
`try`; success returns `True` (the `with` block closes the socket at once);
`except (socket_timeout, ConnectionRefusedError, OSError)` returns `False`;
any exception not matching those classes would escape, which the
`Except.error` case records.  The second component is the trace of
connection attempts. -/
def is_server_up (ip : String) (port : Nat) (timeout : ℚ)
    (conn : ConnOutcome) : Except PyExc Bool × List ConnAttempt :=
  (match conn with
   | .connected => .ok true
   | .raises e =>
     if isInstance e .timeoutCls || isInstance e .connectionRefused
        || isInstance e .osError then
       .ok false
     else
       .error e,
   [⟨ip, port, timeout⟩])

/-- Bytes that CPython's `urlsplit` removes from a URL anywhere
(`_UNSAFE_URL_BYTES_TO_REMOVE`): tab, carriage return, newline. -/
def urlUnsafeByte (c : Char) : Bool :=
  c = '\t' || c = '\r' || c = '\n'

/-- Split a character list at the first occurrence of `c`: returns the part
before it and, when `c` occurs, the part after it. -/
def breakAtChar (c : Char) : List Char → List Char × Option (List Char)
  | [] => ([], none)
  | x :: xs =>
    if x = c then ([], some xs)
    else
      let r := breakAtChar c xs
      (x :: r.1, r.2)

/-- `path.split('/')` on character lists, with an accumulator for the
current segment (kept reversed). -/
def splitSlash : List Char → List Char → List (List Char)
  | [], cur => [cur.reverse]
  | x :: xs, cur =>
    if x = '/' then cur.reverse :: splitSlash xs []
    else splitSlash xs (x :: cur)

/-- CPython `urljoin`'s `segments[1:-1] = filter(None, segments[1:-1])`:
drop empty segments strictly between the first and the last. -/
def midKeep (l : List (List Char)) : List (List Char) :=
  match l with
  | [] => []
  | first :: rest =>
    match rest.getLast? with
    | none => [first]
    | some last => first :: ((rest.dropLast.filter fun s => !s.isEmpty) ++ [last])

/-- CPython `urljoin`'s resolution loop: `'..'` pops the last resolved
segment (ignoring pops from an empty list), `'.'` is dropped, everything
else is appended. -/
def resolveSegs : List (List Char) → List (List Char) → List (List Char)
  | acc, [] => acc
  | acc, s :: rest =>
    if s = ['.', '.'] then resolveSegs acc.dropLast rest
    else if s = ['.'] then resolveSegs acc rest
    else resolveSegs (acc ++ [s]) rest

/-- `'/'.join` on character-list segments. -/
def joinSlash : List (List Char) → List Char
  | [] => []
  | [s] => s
  | s :: rest => s ++ '/' :: joinSlash rest

/-- The path-query-fragment suffix of CPython's
`urljoin("https://{ip}:{port}/api2/json/", rel)` for a relative reference
`rel` that starts with `"nodes/"` (so it never parses as a scheme or a
netloc): remove tab, CR and LF; split off fragment (at the first `#`) and
query (at the first `?` before it); merge the path with the base path
segments `["", "api2", "json", ""]`; drop empty interior segments; resolve
`.` and `..` segments; append an empty segment when the last segment is a
dot segment; rejoin with `/`, defaulting to `/` and forcing a leading `/`
(as `urlunsplit` does when a netloc is present); reattach non-empty query
and fragment. -/
def pyUrljoinApi2Suffix (rel0 : List Char) : List Char :=
  let rel := rel0.filter fun c => !urlUnsafeByte c
  let pf := breakAtChar '#' rel
  let pq := breakAtChar '?' pf.1
  let relSegs := splitSlash pq.1 []
  let segs := midKeep ([[], "api2".data, "json".data, []] ++ relSegs)
  let resolved := resolveSegs [] segs
  let resolved :=
    if segs.getLast? = some ['.'] ∨ segs.getLast? = some ['.', '.'] then
      resolved ++ [[]]
    else resolved
  let p := joinSlash resolved
  let p := if p.isEmpty then ['/'] else p
  let p := if p.head? = some '/' then p else '/' :: p
  let q := match pq.2 with
    | some qs => if qs.isEmpty then [] else '?' :: qs
    | none => []
  let f := match pf.2 with
    | some fs => if fs.isEmpty then [] else '#' :: fs
    | none => []
  p ++ q ++ f

/-- The URL the source computes:
`urljoin(f"https://{server_ip}:{server_port}/api2/json/",
f"nodes/{node_name}/status")`. -/
def shutdown_url (server_ip : String) (server_port : Nat)
    (node_name : String) : String :=
  "https://" ++ server_ip ++ ":" ++ toString server_port
    ++ String.mk
        (pyUrljoinApi2Suffix ("nodes/".data ++ node_name.data ++ "/status".data))

/-- Modelled from the spec: the wire-contract URL template
`https://{address}:{port}/api2/json/nodes/{node_name}/status`, written as
plain string concatenation, to be compared with `shutdown_url`. -/
def specWireUrl (address : String) (port : Nat) (node_name : String) : String :=
  "https://" ++ address ++ ":" ++ toString port
    ++ "/api2/json/nodes/" ++ node_name ++ "/status"

/-- A `node_name` that is a plain single path segment: non-empty, free of
`/`, `?`, `#` and of the bytes `urlsplit` removes, and not a dot segment. -/
def plainSegChar (c : Char) : Bool :=
  c ≠ '/' && c ≠ '?' && c ≠ '#' && !urlUnsafeByte c

/-- Decidable plainness predicate on a node name. -/
def plainNodeName (n : String) : Bool :=
  !n.data.isEmpty && n.data.all plainSegChar && n ≠ "." && n ≠ ".."

/-- One `requests.post` call as the source issues it: URL, headers, form
data, certificate verification flag, timeout in seconds. -/
structure HttpRequest where
  url : String
  headers : List (String × String)
  data : List (String × String)
  verify : Bool
  timeout : ℚ
deriving DecidableEq

/-- Outcome of the single `requests.post` call: a response with a status
code and a body text, or a raised exception (DNS, TLS, refusal, timeout). -/
inductive HttpOutcome where
  | response (status : Nat) (text : String)
  | raises (e : PyExc)
deriving DecidableEq

/-- What `shutdown_proxmox_with_token` produces: the returned boolean, the
`error(...)` messages shown, and the trace of HTTP requests issued. -/
structure ApiResult where
  ok : Bool
  errors : List String
  requests : List HttpRequest
deriving DecidableEq

/-- Embedding of `shutdown_proxmox_with_token`: build the URL with
`urljoin`, set the `Authorization: PVEAPIToken={token_id}={token_secret}`
header and the form field `command=shutdown`, POST once with `verify=False`
and `timeout=5`; return `True` iff the status code is 200, otherwise show
`Shutdown failed: {status} - {text}`; `except Exception` shows
`Error contacting Proxmox API: {ex}`. -/
def shutdown_proxmox_with_token (server_ip : String) (server_port : Nat)
    (node_name token_id token_secret : String) (net : HttpOutcome) : ApiResult :=
  let req : HttpRequest :=
    ⟨shutdown_url server_ip server_port node_name,
     [("Authorization", "PVEAPIToken=" ++ token_id ++ "=" ++ token_secret)],
     [("command", "shutdown")], false, 5⟩
  match net with
  | .response status text =>
    if status = 200 then ⟨true, [], [req]⟩
    else ⟨false, ["Shutdown failed: " ++ toString status ++ " - " ++ text], [req]⟩
  | .raises e =>
    ⟨false, ["Error contacting Proxmox API: " ++ PyExc.msg e], [req]⟩

/-- Outcome of the single `subprocess.run(ssh_command, capture_output=True,
text=True, timeout=5)` call: the process completed with a return code and a
captured stderr, or the call raised (`FileNotFoundError` when the `ssh`
binary is missing; `subprocess.TimeoutExpired` when the 5-second bound
expires; others). -/
inductive RunOutcome where
  | completed (returncode : Int) (stderr : String)
  | raises (e : PyExc)
deriving DecidableEq

/-- Record of one `subprocess.run` invocation. -/
structure ProcCall where
  argv : List String
  capture_output : Bool
  timeout : ℚ
deriving DecidableEq

/-- The argument vector the source builds for the remote execution:
key-authenticated `ssh` with host-key checking disabled, running the fixed
command `sudo shutdown now`. -/
def sshCommand (server_ip username key_path : String) : List String :=
  ["ssh", "-i", key_path, "-o", "StrictHostKeyChecking=no",
   "-o", "UserKnownHostsFile=/dev/null",
   username ++ "@" ++ server_ip, "sudo shutdown now"]

/-- What `shutdown_linux_with_ssh` produces: the returned boolean, the
`error(...)` messages shown, and the trace of process invocations. -/
structure SshResult where
  ok : Bool
  errors : List String
  calls : List ProcCall
deriving DecidableEq

/-- Embedding of `shutdown_linux_with_ssh`: run the ssh command once with
`capture_output=True` and `timeout=5`; return `True` iff the exit status is
0, otherwise show `SSH error ({returncode}): {stderr.strip()}`.  The
`except` chain is dispatched in source order by exception class:
`FileNotFoundError`, then `CalledProcessError`, then `socket.timeout`
(which is `TimeoutError`), then `Exception`.  Note that
`subprocess.TimeoutExpired` is a `SubprocessError`, not a `TimeoutError`,
so a timeout of `run` reaches the final generic handler. -/
def shutdown_linux_with_ssh (server_ip username key_path : String)
    (runRes : RunOutcome) : SshResult :=
  let call : ProcCall := ⟨sshCommand server_ip username key_path, true, 5⟩
  match runRes with
  | .completed rc stderr =>
    if rc = 0 then ⟨true, [], [call]⟩
    else ⟨false, ["SSH error (" ++ toString rc ++ "): " ++ stderr.trim], [call]⟩
  | .raises e =>
    if isInstance e .fileNotFound then
      ⟨false, ["SSH command not found. Ensure OpenSSH is installed on your system."],
       [call]⟩
    else if isInstance e .calledProcess then
      ⟨false, ["SSH command failed: " ++ PyExc.msg e], [call]⟩
    else if isInstance e .timeoutCls then
      ⟨false, ["Connection timed out."], [call]⟩
    else
      ⟨false, ["Unexpected error: " ++ PyExc.msg e], [call]⟩

/-- Continuation byte `10xxxxxx` of UTF-8. -/
def utf8Cont (b : Nat) : Bool := 128 ≤ b && b ≤ 191

/-- Strict UTF-8 validity of a byte sequence (RFC 3629), the success
condition of `bytes.decode("utf-8")`: rejects overlong encodings,
surrogates and code points beyond U+10FFFF. -/
def utf8Valid : List Nat → Bool
  | [] => true
  | b :: rest =>
    if b ≤ 127 then utf8Valid rest
    else
      match rest with
      | [] => false
      | c1 :: rest1 =>
        if 194 ≤ b && b ≤ 223 then utf8Cont c1 && utf8Valid rest1
        else
          match rest1 with
          | [] => false
          | c2 :: rest2 =>
            if b = 224 then
              (160 ≤ c1 && c1 ≤ 191) && utf8Cont c2 && utf8Valid rest2
            else if 225 ≤ b && b ≤ 236 then
              utf8Cont c1 && utf8Cont c2 && utf8Valid rest2
            else if b = 237 then
              (128 ≤ c1 && c1 ≤ 159) && utf8Cont c2 && utf8Valid rest2
            else if 238 ≤ b && b ≤ 239 then
              utf8Cont c1 && utf8Cont c2 && utf8Valid rest2
            else
              match rest2 with
              | [] => false
              | c3 :: rest3 =>
                if b = 240 then
                  (144 ≤ c1 && c1 ≤ 191) && utf8Cont c2 && utf8Cont c3
                    && utf8Valid rest3
                else if 241 ≤ b && b ≤ 243 then
                  utf8Cont c1 && utf8Cont c2 && utf8Cont c3 && utf8Valid rest3
                else if b = 244 then
                  (128 ≤ c1 && c1 ≤ 143) && utf8Cont c2 && utf8Cont c3
                    && utf8Valid rest3
                else false

/-- Filesystem events on the transient key file. -/
inductive FsEvent where
  | create (path : String) (mode : Nat)
  | write (path : String) (content : List Nat)
  | flush (path : String)
  | chmod (path : String) (mode : Nat)
  | useKey (path : String)
  | delete (path : String)
deriving DecidableEq

/-- What the key-upload branch of `render_generic_shutdown_ui` produces:
the filesystem event trace on the transient key file, the UI messages, the
ssh invocations, and the exception escaping the function, if any. -/
structure RenderResult where
  events : List FsEvent
  uiErrors : List String
  uiSuccess : List String
  sshCalls : List ProcCall
  escaped : Option PyExc
deriving DecidableEq

/-- Embedding of the shutdown branch of `render_generic_shutdown_ui`.
`upload` is the `file_uploader` result: `none` when no file was uploaded
(Python `None`, falsy, so `if ssh_key_file and button(...)` short-circuits
and the button is not even rendered); an uploaded file is a `BytesIO`
subclass and is truthy whatever its content, empty included.  When the
button is pressed, `NamedTemporaryFile(mode="w", dir=temp_dir,
prefix="ssh_key_", delete=True)` creates the file (`mkstemp` creates it
with mode `0o600` = 384); inside the `with` block the source evaluates
`ssh_key_file.getvalue().decode("utf-8")`: when the bytes are not valid
UTF-8 this raises `UnicodeDecodeError`, which nothing catches, and the
`with` block still deletes the file on exit; otherwise the decoded key is
written, flushed, `os.chmod(..., 0o600)` is applied, and the path is handed
to `shutdown_linux_with_ssh`; `delete=True` removes the file when the
`with` block exits on every path. -/
def render_generic_shutdown_ui (ip : String) (upload : Option (List Nat))
    (pressed : Bool) (tmpName : String) (runRes : RunOutcome) : RenderResult :=
  match upload with
  | none => ⟨[], [], [], [], none⟩
  | some key =>
    if pressed then
      if utf8Valid key then
        let sshRes := shutdown_linux_with_ssh ip "gatekeeper" tmpName runRes
        { events := [.create tmpName 384, .write tmpName key, .flush tmpName,
                     .chmod tmpName 384, .useKey tmpName, .delete tmpName],
          uiErrors := sshRes.errors ++
            (if sshRes.ok then []
             else ["Shutdown failed. Verify that the SSH setup is correctly configured."]),
          uiSuccess := if sshRes.ok then ["Shutdown command sent successfully!"] else [],
          sshCalls := sshRes.calls,
          escaped := none }
      else
        { events := [.create tmpName 384, .delete tmpName],
          uiErrors := [], uiSuccess := [], sshCalls := [],
          escaped := some (.unicodeDecodeError
            "utf-8 codec cannot decode uploaded key bytes") }
    else ⟨[], [], [], [], none⟩

/-- Replay a filesystem event trace and report whether `path` exists at the
end, starting from existence state `st`. -/
def existsAfter (path : String) : List FsEvent → Bool → Bool
  | [], st => st
  | e :: rest, st =>
    existsAfter path rest
      (match e with
       | .create p _ => if p = path then true else st
       | .delete p => if p = path then false else st
       | _ => st)

/-- Check that every use of the key at `path` is preceded in the trace by a
`chmod` to mode `0o600` on it; `seen` records whether such a `chmod` has
already occurred. -/
def usesAfterChmod (path : String) : List FsEvent → Bool → Bool
  | [], _ => true
  | e :: rest, seen =>
    match e with
    | .chmod p m => usesAfterChmod path rest (seen || (p == path && m == 384))
    | .useKey p => (p != path || seen) && usesAfterChmod path rest seen
    | _ => usesAfterChmod path rest seen

/-- What the token branch of `render_proxmox_shutdown_ui` produces. -/
structure ProxRenderResult where
  uiErrors : List String
  uiSuccess : List String
  requests : List HttpRequest
deriving DecidableEq

/-- Embedding of the shutdown branch of `render_proxmox_shutdown_ui`:
`all([node_name, token_id, token_secret])` is Python truthiness of the
three strings, so the button is rendered (and the strategy callable) only
when all three are non-empty and the request is sent only when the button
is pressed as well. -/
def render_proxmox_shutdown_ui (ip : String) (port : Nat)
    (node_name token_id token_secret : String) (pressed : Bool)
    (net : HttpOutcome) : ProxRenderResult :=
  if !node_name.isEmpty && !token_id.isEmpty && !token_secret.isEmpty && pressed then
    let r := shutdown_proxmox_with_token ip port node_name token_id token_secret net
    ⟨r.errors ++
      (if r.ok then [] else ["Shutdown request failed. Check credentials and try again."]),
     if r.ok then ["Shutdown command sent successfully!"] else [],
     r.requests⟩
  else ⟨[], [], []⟩

/-- Hexadecimal digit. -/
def hexDigit (c : Char) : Bool :=
  ('0' ≤ c && c ≤ '9') || ('a' ≤ c && c ≤ 'f') || ('A' ≤ c && c ≤ 'F')

/-- Value of a hexadecimal digit. -/
def hexVal (c : Char) : Nat :=
  if '0' ≤ c && c ≤ '9' then c.toNat - '0'.toNat
  else if 'a' ≤ c && c ≤ 'f' then c.toNat - 'a'.toNat + 10
  else if 'A' ≤ c && c ≤ 'F' then c.toNat - 'A'.toNat + 10
  else 0

/-- Hex digit pairs to byte values. -/
def pairsToBytes : List Char → List Nat
  | a :: b :: rest => (16 * hexVal a + hexVal b) :: pairsToBytes rest
  | _ => []

/-- Uniform colon or dash separators of a MAC address. -/
def sepOk (s1 s2 s3 s4 s5 : Char) : Bool :=
  (s1 = ':' && s2 = ':' && s3 = ':' && s4 = ':' && s5 = ':')
  || (s1 = '-' && s2 = '-' && s3 = '-' && s4 = '-' && s5 = '-')

/-- Modelled from the spec: parsing of a standard 6-octet MAC address in
colon-, dash- or bare-hex form (§4.2), the validation step of the
third-party `wakeonlan` package, whose code is not part of the
repository. -/
def parseMac (s : String) : Option (List Nat) :=
  let bare : Option (List Char) :=
    match s.data with
    | [a, b, c, d, e, f, g, h, i, j, k, l] =>
      some [a, b, c, d, e, f, g, h, i, j, k, l]
    | [a, b, s1, c, d, s2, e, f, s3, g, h, s4, i, j, s5, k, l] =>
      if sepOk s1 s2 s3 s4 s5 then some [a, b, c, d, e, f, g, h, i, j, k, l]
      else none
    | _ => none
  match bare with
  | some l => if l.all hexDigit then some (pairsToBytes l) else none
  | none => none

/-- The two wake failure kinds of §4.2: validation failure on a malformed
hardware address, and transport failure on a local socket/send error. -/
inductive WakeError where
  | invalidMac (msg : String)
  | transport (msg : String)
deriving DecidableEq

/-- Outcome of handing the broadcast packet to the network stack. -/
inductive SendOutcome where
  | sent
  | sendError (msg : String)
deriving DecidableEq

/-- What the wake call produces: the broadcast payloads handed to the
network stack and the result value. -/
structure WakeResult where
  sends : List (List Nat)
  result : Except WakeError Unit

/-- Modelled from the spec: `send_magic_packet` of the third-party
`wakeonlan` package is not part of the repository.  Per §4.2 and the
glossary: a hardware address that does not parse as a 6-octet MAC fails
validation before any network action; otherwise the magic packet — six
0xFF synchronization bytes followed by the address repeated sixteen times —
is broadcast once, fire-and-forget, and a local socket/send error is a
transport failure distinct from the validation failure. -/
def send_magic_packet (mac : String) (send : SendOutcome) : WakeResult :=
  match parseMac mac with
  | none => ⟨[], .error (.invalidMac "Incorrect MAC address format")⟩
  | some octets =>
    let payload := List.replicate 6 255 ++ (List.replicate 16 octets).flatten
    match send with
    | .sent => ⟨[payload], .ok ()⟩
    | .sendError m => ⟨[payload], .error (.transport m)⟩

/-- Embedding of `wake_server`: its body is exactly the
`send_magic_packet(mac)` call. -/
def wake_server (mac : String) (send : SendOutcome) : WakeResult :=
  send_magic_packet mac send

/-- Message text of a wake failure, as interpolated by `main`'s
`except Exception as e` handler. -/
def wakeErrMsg : WakeError → String
  | .invalidMac m => m
  | .transport m => m

/-- The actions the controller can expose. -/
inductive GateAction where
  | tokenApiShutdown
  | keyBasedShutdown
  | wakeTrigger
deriving DecidableEq

/-- The configuration loaded from the environment at process start. -/
structure Config where
  is_proxmox : Bool
  server_ip : String
  server_mac : String
  server_port : Nat

/-- External-world outcomes and operator inputs of one evaluation of
`main`. -/
structure Env where
  conn : ConnOutcome
  node_name : String
  token_id : String
  token_secret : String
  proxPressed : Bool
  net : HttpOutcome
  upload : Option (List Nat)
  genericPressed : Bool
  tmpName : String
  runRes : RunOutcome
  wakePressed : Bool
  wakeSend : SendOutcome

/-- Everything one evaluation of `main` does. -/
structure MainResult where
  probeAttempts : List ConnAttempt
  actions : List GateAction
  escaped : Option PyExc
  uiErrors : List String
  uiSuccess : List String
  httpRequests : List HttpRequest
  sshCalls : List ProcCall
  fsEvents : List FsEvent
  wakeSends : List (List Nat)

/-- Embedding of `main`: probe once with the default 2-second timeout; when
up, show the success banner and render exactly the shutdown UI selected by
`IS_PROXMOX`; when down, show the unavailable banner, offer the wake
button — whose handler wraps `wake_server` in `try`/`except Exception` —
and instruct the operator to refresh the page to re-probe (there is no loop
and no automatic re-evaluation in the source).  An exception escaping a
render function escapes `main`. -/
def mainModel (cfg : Config) (env : Env) : MainResult :=
  let probe := is_server_up cfg.server_ip cfg.server_port 2 env.conn
  let upMsg := "Server is up at " ++ cfg.server_ip ++ ":" ++ toString cfg.server_port
  let downMsg := "Server is currently **unavailable** at " ++ cfg.server_ip
    ++ ":" ++ toString cfg.server_port
  match probe.1 with
  | .error e =>
    { probeAttempts := probe.2, actions := [], escaped := some e,
      uiErrors := [], uiSuccess := [], httpRequests := [], sshCalls := [],
      fsEvents := [], wakeSends := [] }
  | .ok true =>
    if cfg.is_proxmox then
      let r := render_proxmox_shutdown_ui cfg.server_ip cfg.server_port
        env.node_name env.token_id env.token_secret env.proxPressed env.net
      { probeAttempts := probe.2, actions := [.tokenApiShutdown],
        escaped := none, uiErrors := r.uiErrors,
        uiSuccess := upMsg :: r.uiSuccess, httpRequests := r.requests,
        sshCalls := [], fsEvents := [], wakeSends := [] }
    else
      let r := render_generic_shutdown_ui cfg.server_ip env.upload
        env.genericPressed env.tmpName env.runRes
      { probeAttempts := probe.2, actions := [.keyBasedShutdown],
        escaped := r.escaped, uiErrors := r.uiErrors,
        uiSuccess := upMsg :: r.uiSuccess, httpRequests := [],
        sshCalls := r.sshCalls, fsEvents := r.events, wakeSends := [] }
  | .ok false =>
    if env.wakePressed then
      let w := wake_server cfg.server_mac env.wakeSend
      match w.result with
      | .ok _ =>
        { probeAttempts := probe.2, actions := [.wakeTrigger],
          escaped := none, uiErrors := [downMsg],
          uiSuccess := ["Wake-on-LAN signal sent successfully!"],
          httpRequests := [], sshCalls := [], fsEvents := [],
          wakeSends := w.sends }
      | .error err =>
        { probeAttempts := probe.2, actions := [.wakeTrigger],
          escaped := none,
          uiErrors := [downMsg, "Failed to send WoL packet: " ++ wakeErrMsg err],
          uiSuccess := [], httpRequests := [], sshCalls := [], fsEvents := [],
          wakeSends := w.sends }
    else
      { probeAttempts := probe.2, actions := [.wakeTrigger], escaped := none,
        uiErrors := [downMsg], uiSuccess := [], httpRequests := [],
        sshCalls := [], fsEvents := [], wakeSends := [] }

/-- Claim C4: for every address, port and positive timeout, `is_server_up`
makes a single connection attempt, returns `true` if and only if the TCP
handshake completes before the timeout, and normalizes every network
failure class (timeout, refusal, unreachability, DNS failure — all raised
as instances of `OSError`) to the boolean `false`, letting no exception of
those classes escape. -/
theorem C4_is_server_up_normalizes (ip : String) (port : Nat) (t : ℚ)
    (_ht : 0 < t) (conn : ConnOutcome) :
    (is_server_up ip port t conn).2 = [⟨ip, port, t⟩]
    ∧ (conn = .connected → (is_server_up ip port t conn).1 = .ok true)
    ∧ ((is_server_up ip port t conn).1 = .ok true → conn = .connected)
    ∧ (∀ e : PyExc, conn = .raises e → isInstance e .osError = true →
        (is_server_up ip port t conn).1 = .ok false) := by
  refine ⟨rfl, ?_, ?_, ?_⟩
  · rintro rfl; rfl
  · intro h
    cases conn with
    | connected => rfl
    | raises e =>
      simp only [is_server_up] at h
      split at h
      · exact absurd h (by simp)
      · exact absurd h (by simp)
  · rintro e rfl hos
    simp only [is_server_up]
    rw [if_pos (by simp [hos])]

/-- Claim C4, witness: concrete instantiations of the probe theorem at a
connected outcome and at a DNS failure. -/
theorem C4_is_server_up_normalizes_witness :
    (0 : ℚ) < 2
    ∧ (is_server_up "10.0.0.5" 8006 2 .connected).1 = .ok true
    ∧ (is_server_up "10.0.0.5" 8006 2
        (.raises (.gaierror "Name or service not known"))).1 = .ok false := by
  refine ⟨by norm_num, ?_, ?_⟩
  · exact (C4_is_server_up_normalizes "10.0.0.5" 8006 2 (by norm_num)
      .connected).2.1 rfl
  · exact (C4_is_server_up_normalizes "10.0.0.5" 8006 2 (by norm_num)
      (.raises (.gaierror "Name or service not known"))).2.2.2
      _ rfl rfl

/-- Rebuilding a string from its character data is the identity. -/
theorem strMk_data : ∀ s : String, String.mk s.data = s
  | ⟨_⟩ => rfl

/-- String construction commutes with list append. -/
theorem strMk_append (a b : List Char) :
    String.mk (a ++ b) = String.mk a ++ String.mk b := rfl

/-- A filter that keeps every element of a list is the identity. -/
theorem filter_eq_self_of (p : Char → Bool) :
    ∀ l : List Char, (∀ c ∈ l, p c = true) → l.filter p = l
  | [], _ => rfl
  | x :: xs, h => by
    have hx : p x = true := h x (List.mem_cons_self x xs)
    have hxs := filter_eq_self_of p xs fun c hc => h c (List.mem_cons_of_mem _ hc)
    simp [List.filter, hx, hxs]

/-- Splitting at a character that does not occur returns the whole list. -/
theorem breakAtChar_not_mem (c : Char) :
    ∀ l : List Char, c ∉ l → breakAtChar c l = (l, none)
  | [], _ => rfl
  | x :: xs, h => by
    have hx : ¬(x = c) := fun he => h (he ▸ List.mem_cons_self x xs)
    have hxs : c ∉ xs := fun hm => h (List.mem_cons_of_mem _ hm)
    simp [breakAtChar, hx, breakAtChar_not_mem c xs hxs]

/-- Splitting a slash-free list yields a single segment. -/
theorem splitSlash_no_slash :
    ∀ l cur : List Char, '/' ∉ l → splitSlash l cur = [cur.reverse ++ l]
  | [], cur, _ => by simp [splitSlash]
  | x :: xs, cur, h => by
    have hx : ¬(x = '/') := fun he => h (he ▸ List.mem_cons_self x xs)
    have hxs : '/' ∉ xs := fun hm => h (List.mem_cons_of_mem _ hm)
    simp [splitSlash, hx, splitSlash_no_slash xs (x :: cur) hxs]

/-- Splitting peels off one slash-free segment before a slash. -/
theorem splitSlash_append :
    ∀ xs ys cur : List Char, '/' ∉ xs →
      splitSlash (xs ++ '/' :: ys) cur = (cur.reverse ++ xs) :: splitSlash ys []
  | [], ys, cur, _ => by simp [splitSlash]
  | x :: xs, ys, cur, h => by
    have hx : ¬(x = '/') := fun he => h (he ▸ List.mem_cons_self x xs)
    have hxs : '/' ∉ xs := fun hm => h (List.mem_cons_of_mem _ hm)
    simp [splitSlash, hx, splitSlash_append xs ys (x :: cur) hxs]

/-- For a node name that is a plain single path segment, the `urljoin`
pipeline leaves the relative reference untouched: the resulting path is the
verbatim concatenation. -/
theorem pyUrljoin_plain (l : List Char) (hl : l ≠ [])
    (hsafe : ∀ c ∈ l, urlUnsafeByte c = false)
    (hslash : '/' ∉ l) (hq : '?' ∉ l) (hh : '#' ∉ l)
    (hd1 : l ≠ ['.']) (hd2 : l ≠ ['.', '.']) :
    pyUrljoinApi2Suffix ("nodes/".data ++ l ++ "/status".data)
      = "/api2/json/nodes/".data ++ l ++ "/status".data := by
  have hle : l.isEmpty = false := by cases l with
    | nil => exact absurd rfl hl
    | cons a as => rfl
  have hrel : "nodes/".data ++ l ++ "/status".data
      = ['n', 'o', 'd', 'e', 's'] ++ '/' :: (l ++ '/' :: "status".data) := by
    simp
  have hfilt : ("nodes/".data ++ l ++ "/status".data).filter (fun c => !urlUnsafeByte c)
      = "nodes/".data ++ l ++ "/status".data := by
    have hA : ∀ c ∈ ("nodes/".data : List Char), (!urlUnsafeByte c) = true := by decide
    have hB : ∀ c ∈ ("/status".data : List Char), (!urlUnsafeByte c) = true := by decide
    refine filter_eq_self_of _ _ ?_
    intro c hc
    simp only [List.mem_append] at hc
    rcases hc with (hc | hc) | hc
    · exact hA c hc
    · simp [hsafe c hc]
    · exact hB c hc
  have hnomem : ∀ c : Char, c ∉ ("nodes/".data : List Char) → c ∉ l →
      c ∉ ("/status".data : List Char) →
      c ∉ ("nodes/".data ++ l ++ "/status".data) := by
    intro c h1 h2 h3 hm
    simp only [List.mem_append] at hm
    rcases hm with (hm | hm) | hm
    · exact h1 hm
    · exact h2 hm
    · exact h3 hm
  have hbf : breakAtChar '#' ("nodes/".data ++ l ++ "/status".data)
      = ("nodes/".data ++ l ++ "/status".data, none) :=
    breakAtChar_not_mem _ _ (hnomem '#' (by decide) hh (by decide))
  have hbq : breakAtChar '?' ("nodes/".data ++ l ++ "/status".data)
      = ("nodes/".data ++ l ++ "/status".data, none) :=
    breakAtChar_not_mem _ _ (hnomem '?' (by decide) hq (by decide))
  have hsplit : splitSlash ("nodes/".data ++ l ++ "/status".data) []
      = ["nodes".data, l, "status".data] := by
    rw [hrel, splitSlash_append _ _ _ (by decide),
        splitSlash_append _ _ _ hslash,
        splitSlash_no_slash _ _ (by decide)]
    simp
  simp only [pyUrljoinApi2Suffix, hfilt, hbf, hbq, hsplit]
  simp only [show ([[], "api2".data, "json".data, []]
      ++ ["nodes".data, l, "status".data] : List (List Char))
      = [[], "api2".data, "json".data, [], "nodes".data, l, "status".data]
    from rfl]
  simp only [midKeep, List.getLast?, List.dropLast, List.filter, hle]
  simp only [resolveSegs, hd1, hd2]
  simp [joinSlash]

/-- String append is associative. -/
theorem str_assoc : ∀ a b c : String, a ++ b ++ c = a ++ (b ++ c)
  | ⟨a⟩, ⟨b⟩, ⟨c⟩ => congrArg String.mk (List.append_assoc a b c)

/-- For a plain single-segment node name, the URL the source computes
equals the wire-contract template of the spec. -/
theorem shutdown_url_plain (ip : String) (port : Nat) (n : String)
    (h : plainNodeName n = true) :
    shutdown_url ip port n = specWireUrl ip port n := by
  simp only [plainNodeName, Bool.and_eq_true, Bool.not_eq_true',
    List.all_eq_true, decide_eq_true_eq] at h
  obtain ⟨⟨⟨h1, h2⟩, h3⟩, h4⟩ := h
  have hl : n.data ≠ [] := by
    intro he
    rw [he] at h1
    simp at h1
  have hslash : '/' ∉ n.data := fun hm => by
    have := h2 _ hm
    simp [plainSegChar] at this
  have hq : '?' ∉ n.data := fun hm => by
    have := h2 _ hm
    simp [plainSegChar] at this
  have hh : '#' ∉ n.data := fun hm => by
    have := h2 _ hm
    simp [plainSegChar] at this
  have hsafe : ∀ c ∈ n.data, urlUnsafeByte c = false := by
    intro c hc
    have := h2 c hc
    simp only [plainSegChar, Bool.and_eq_true, Bool.not_eq_true'] at this
    exact this.2
  have hd1 : n.data ≠ ['.'] := by
    intro he
    refine h3 ?_
    have hmk := strMk_data n
    rw [he] at hmk
    exact hmk.symm.trans (by decide)
  have hd2 : n.data ≠ ['.', '.'] := by
    intro he
    refine h4 ?_
    have hmk := strMk_data n
    rw [he] at hmk
    exact hmk.symm.trans (by decide)
  show "https://" ++ ip ++ ":" ++ toString port
      ++ String.mk (pyUrljoinApi2Suffix ("nodes/".data ++ n.data ++ "/status".data))
    = specWireUrl ip port n
  rw [pyUrljoin_plain n.data hl hsafe hslash hq hh hd1 hd2]
  rw [strMk_append, strMk_append, strMk_data, strMk_data]
  show _ = "https://" ++ ip ++ ":" ++ toString port
      ++ "/api2/json/nodes/" ++ n ++ "/status"
  simp [str_assoc]

/-- Claim C1, counterexample: the claim asserts the POST goes to
`https://{address}:{port}/api2/json/nodes/{node_name}/status` for every
node name, but for `node_name = ".."` CPython's `urljoin` resolves the dot
segment and the single POST goes to
`https://10.0.0.5:8006/api2/json/status`, which differs from the template. -/
theorem C1_counterexample :
    (shutdown_proxmox_with_token "10.0.0.5" 8006 ".." "root@pam!gate" "secret"
        (.response 200 "")).requests
      = [⟨"https://10.0.0.5:8006/api2/json/status",
          [("Authorization", "PVEAPIToken=root@pam!gate=secret")],
          [("command", "shutdown")], false, 5⟩]
    ∧ "https://10.0.0.5:8006/api2/json/status"
        ≠ specWireUrl "10.0.0.5" 8006 ".." := by
  exact ⟨rfl, by decide⟩

/-- Claim C1 (amended): every call of `shutdown_proxmox_with_token` issues
exactly one HTTPS POST, to the URL obtained by standard relative-reference
resolution of `nodes/{node_name}/status` against
`https://{address}:{port}/api2/json/` — equal to the template
`https://{address}:{port}/api2/json/nodes/{node_name}/status` whenever
`node_name` is a plain single path segment — carrying the header
`Authorization: PVEAPIToken={token_id}={token_secret}` and the form field
`command=shutdown`, with certificate validation disabled and a 5-second
timeout; it succeeds iff the response status is exactly 200, and any other
status or any exception yields failure with the corresponding diagnostic
(status code plus body, or exception message), with no diagnostic on
success. -/
theorem C1_amended (ip : String) (port : Nat) (n tid ts : String)
    (net : HttpOutcome) :
    (shutdown_proxmox_with_token ip port n tid ts net).requests
      = [⟨shutdown_url ip port n,
          [("Authorization", "PVEAPIToken=" ++ tid ++ "=" ++ ts)],
          [("command", "shutdown")], false, 5⟩]
    ∧ (plainNodeName n = true → shutdown_url ip port n = specWireUrl ip port n)
    ∧ (∀ s text, net = .response s text →
        ((shutdown_proxmox_with_token ip port n tid ts net).ok = true ↔ s = 200)
        ∧ (s ≠ 200 → (shutdown_proxmox_with_token ip port n tid ts net).errors
            = ["Shutdown failed: " ++ toString s ++ " - " ++ text]))
    ∧ (∀ e, net = .raises e →
        (shutdown_proxmox_with_token ip port n tid ts net).ok = false
        ∧ (shutdown_proxmox_with_token ip port n tid ts net).errors
            = ["Error contacting Proxmox API: " ++ PyExc.msg e])
    ∧ ((shutdown_proxmox_with_token ip port n tid ts net).ok = true →
        (shutdown_proxmox_with_token ip port n tid ts net).errors = []) := by
  refine ⟨?_, shutdown_url_plain ip port n, ?_, ?_, ?_⟩
  · cases net with
    | response s text =>
      by_cases hs : s = 200 <;> simp [shutdown_proxmox_with_token, hs]
    | raises e => simp [shutdown_proxmox_with_token]
  · rintro s text rfl
    by_cases hs : s = 200 <;> simp [shutdown_proxmox_with_token, hs]
  · rintro e rfl
    simp [shutdown_proxmox_with_token]
  · cases net with
    | response s text =>
      by_cases hs : s = 200 <;> simp [shutdown_proxmox_with_token, hs]
    | raises e => simp [shutdown_proxmox_with_token]

/-- Claim C1, witness: the amended theorem instantiated at the plain node
name `pve1` and a 500 response. -/
theorem C1_amended_witness :
    plainNodeName "pve1" = true
    ∧ shutdown_url "10.0.0.5" 8006 "pve1" = specWireUrl "10.0.0.5" 8006 "pve1"
    ∧ ((shutdown_proxmox_with_token "10.0.0.5" 8006 "pve1" "root@pam!gate"
        "secret" (.response 500 "error")).ok = true ↔ (500 : Nat) = 200) := by
  refine ⟨by decide, ?_, ?_⟩
  · exact (C1_amended "10.0.0.5" 8006 "pve1" "root@pam!gate" "secret"
      (.response 500 "error")).2.1 (by decide)
  · exact ((C1_amended "10.0.0.5" 8006 "pve1" "root@pam!gate" "secret"
      (.response 500 "error")).2.2.1 500 "error" rfl).1

/-- `shutdown_linux_with_ssh` invokes the ssh client exactly once, with
`capture_output=True` and `timeout=5`, on every outcome. -/
theorem shutdown_linux_calls (ip u kp : String) (runRes : RunOutcome) :
    (shutdown_linux_with_ssh ip u kp runRes).calls
      = [⟨sshCommand ip u kp, true, 5⟩] := by
  cases runRes with
  | completed rc st =>
    by_cases h : rc = 0 <;> simp [shutdown_linux_with_ssh, h]
  | raises e =>
    simp only [shutdown_linux_with_ssh]
    split
    · rfl
    · split
      · rfl
      · split
        · rfl
        · rfl

/-- Claim C2, code bug: a timeout of `subprocess.run` raises
`subprocess.TimeoutExpired`, which is not a `TimeoutError`, so the source's
`except socket_timeout` handler — the one that would produce the distinct
diagnostic `Connection timed out.` — can never catch it; the timeout falls
through to the generic `except Exception` handler and is reported as
`Unexpected error: ...`, contrary to the claim's distinct timed-out
diagnostic.  The last conjunct shows the dedicated handler exists and would
fire only for a `TimeoutError`. -/
theorem C2_timeout_dispatch_bug :
    (shutdown_linux_with_ssh "10.0.0.5" "gatekeeper" "/tmp/ssh_key_abc123"
        (.raises (.timeoutExpired "Command timed out after 5 seconds"))).ok
      = false
    ∧ (shutdown_linux_with_ssh "10.0.0.5" "gatekeeper" "/tmp/ssh_key_abc123"
        (.raises (.timeoutExpired "Command timed out after 5 seconds"))).errors
      = ["Unexpected error: Command timed out after 5 seconds"]
    ∧ (shutdown_linux_with_ssh "10.0.0.5" "gatekeeper" "/tmp/ssh_key_abc123"
        (.raises (.timeoutExpired "Command timed out after 5 seconds"))).errors
      ≠ ["Connection timed out."]
    ∧ (shutdown_linux_with_ssh "10.0.0.5" "gatekeeper" "/tmp/ssh_key_abc123"
        (.raises (.timeoutError "timed out"))).errors
      = ["Connection timed out."] :=
  ⟨rfl, rfl, by decide, rfl⟩

/-- Claim C3: for every key-based shutdown invocation, the transient key
file is created with owner-only mode `0600`; when the key decodes, it is
materialized and a `chmod 0600` precedes every use of the key; and on every
exit path — success, failure, or the decode exception — the last event
deletes the file, so it no longer exists after the call. -/
theorem C3_key_file_lifecycle (ip : String) (key : List Nat) (tmp : String)
    (runRes : RunOutcome) :
    (render_generic_shutdown_ui ip (some key) true tmp runRes).events.head?
      = some (.create tmp 384)
    ∧ (utf8Valid key = true →
        (render_generic_shutdown_ui ip (some key) true tmp runRes).events
          = [.create tmp 384, .write tmp key, .flush tmp, .chmod tmp 384,
             .useKey tmp, .delete tmp])
    ∧ usesAfterChmod tmp
        (render_generic_shutdown_ui ip (some key) true tmp runRes).events false
      = true
    ∧ (render_generic_shutdown_ui ip (some key) true tmp runRes).events.getLast?
      = some (.delete tmp)
    ∧ existsAfter tmp
        (render_generic_shutdown_ui ip (some key) true tmp runRes).events false
      = false := by
  by_cases hv : utf8Valid key = true
  · simp [render_generic_shutdown_ui, hv, usesAfterChmod, existsAfter]
  · simp [render_generic_shutdown_ui, hv, usesAfterChmod, existsAfter]

/-- Claim C3, witness: a concrete ASCII key with a successful remote
command; the full event trace is produced and the file is gone at the
end. -/
theorem C3_key_file_lifecycle_witness :
    utf8Valid (("ssh-key-material").data.map Char.toNat) = true
    ∧ (render_generic_shutdown_ui "10.0.0.5"
        (some (("ssh-key-material").data.map Char.toNat)) true
        "/tmp/ssh_key_abc123" (.completed 0 "")).events
      = [.create "/tmp/ssh_key_abc123" 384,
         .write "/tmp/ssh_key_abc123" (("ssh-key-material").data.map Char.toNat),
         .flush "/tmp/ssh_key_abc123", .chmod "/tmp/ssh_key_abc123" 384,
         .useKey "/tmp/ssh_key_abc123", .delete "/tmp/ssh_key_abc123"]
    ∧ existsAfter "/tmp/ssh_key_abc123"
        (render_generic_shutdown_ui "10.0.0.5"
          (some (("ssh-key-material").data.map Char.toNat)) true
          "/tmp/ssh_key_abc123" (.completed 0 "")).events false
      = false := by
  refine ⟨by decide, ?_, ?_⟩
  · exact (C3_key_file_lifecycle "10.0.0.5" (("ssh-key-material").data.map Char.toNat)
      "/tmp/ssh_key_abc123" (.completed 0 "")).2.1 (by decide)
  · exact (C3_key_file_lifecycle "10.0.0.5" (("ssh-key-material").data.map Char.toNat)
      "/tmp/ssh_key_abc123" (.completed 0 "")).2.2.2.2

/-- The actions `main` exposes are a function of the single probe result
and the configured target kind alone. -/
theorem mainModel_actions (cfg : Config) (env : Env) :
    (mainModel cfg env).actions
      = match (is_server_up cfg.server_ip cfg.server_port 2 env.conn).1 with
        | .ok true =>
          if cfg.is_proxmox then [.tokenApiShutdown] else [.keyBasedShutdown]
        | .ok false => [.wakeTrigger]
        | .error _ => [] := by
  rcases hp : (is_server_up cfg.server_ip cfg.server_port 2 env.conn).1 with e | b
  · simp [mainModel, hp]
  · cases b
    · simp only [mainModel, hp]
      by_cases hw : env.wakePressed <;>
        simp [hw] <;> rcases (wake_server cfg.server_mac env.wakeSend).result <;> simp
    · by_cases hx : cfg.is_proxmox <;> simp [mainModel, hp, hx]

/-- Each evaluation of `main` performs exactly one probe attempt, with the default 2-second timeout. -/
theorem mainModel_probe (cfg : Config) (env : Env) :
    (mainModel cfg env).probeAttempts = [⟨cfg.server_ip, cfg.server_port, 2⟩] := by
  have h2 : (is_server_up cfg.server_ip cfg.server_port 2 env.conn).2
      = [⟨cfg.server_ip, cfg.server_port, 2⟩] := rfl
  rcases hp : (is_server_up cfg.server_ip cfg.server_port 2 env.conn).1 with e | b
  · simp [mainModel, hp, h2]
  · cases b
    · simp only [mainModel, hp]
      by_cases hw : env.wakePressed <;> simp only [hw] <;>
        first
        | (rcases (wake_server cfg.server_mac env.wakeSend).result <;> simp [h2])
        | simp [h2]
    · by_cases hx : cfg.is_proxmox <;> simp [mainModel, hp, hx, h2]

/-- Claim C5: each controller evaluation probes exactly once; when the
probe reports up it exposes exactly one shutdown action, `tokenApiShutdown`
for a Proxmox-flavored target and `keyBasedShutdown` otherwise; when the
probe reports down it exposes exactly the wake trigger; and the exposed
actions depend only on that single probe outcome — no other part of the
environment can switch the state, so a transition requires an external
re-probe. -/
theorem C5_controller_actions (cfg : Config) (env : Env) :
    (mainModel cfg env).probeAttempts = [⟨cfg.server_ip, cfg.server_port, 2⟩]
    ∧ ((is_server_up cfg.server_ip cfg.server_port 2 env.conn).1 = .ok true →
        (mainModel cfg env).actions
          = if cfg.is_proxmox then [.tokenApiShutdown] else [.keyBasedShutdown])
    ∧ ((is_server_up cfg.server_ip cfg.server_port 2 env.conn).1 = .ok false →
        (mainModel cfg env).actions = [.wakeTrigger])
    ∧ (∀ env2 : Env, env.conn = env2.conn →
        (mainModel cfg env).actions = (mainModel cfg env2).actions) := by
  refine ⟨mainModel_probe cfg env, ?_, ?_, ?_⟩
  · intro hp
    rw [mainModel_actions, hp]
  · intro hp
    rw [mainModel_actions, hp]
  · intro env2 hc
    rw [mainModel_actions, mainModel_actions, hc]

/-- Claim C5, witness: a reachable Proxmox target exposes the token API
shutdown; an unreachable generic target exposes the wake trigger. -/
theorem C5_controller_actions_witness :
    (is_server_up "10.0.0.5" 8006 2 .connected).1 = .ok true
    ∧ (mainModel ⟨true, "10.0.0.5", "AA:BB:CC:DD:EE:FF", 8006⟩
        ⟨.connected, "pve1", "root@pam!gate", "secret", true, .response 200 "",
         none, false, "/tmp/ssh_key_abc123", .completed 0 "", false,
         .sent⟩).actions = [.tokenApiShutdown]
    ∧ (mainModel ⟨false, "10.0.0.5", "AA:BB:CC:DD:EE:FF", 8006⟩
        ⟨.raises (.connectionRefusedError "refused"), "", "", "", false,
         .response 200 "", none, false, "/tmp/ssh_key_abc123",
         .completed 0 "", false, .sent⟩).actions = [.wakeTrigger] := by
  refine ⟨rfl, ?_, ?_⟩
  · exact (C5_controller_actions ⟨true, "10.0.0.5", "AA:BB:CC:DD:EE:FF", 8006⟩
      ⟨.connected, "pve1", "root@pam!gate", "secret", true, .response 200 "",
       none, false, "/tmp/ssh_key_abc123", .completed 0 "", false,
       .sent⟩).2.1 rfl
  · exact (C5_controller_actions ⟨false, "10.0.0.5", "AA:BB:CC:DD:EE:FF", 8006⟩
      ⟨.raises (.connectionRefusedError "refused"), "", "", "", false,
       .response 200 "", none, false, "/tmp/ssh_key_abc123",
       .completed 0 "", false, .sent⟩).2.2.1 rfl

/-- Claim C6: a hardware address that does not parse as a 6-octet MAC
yields a validation failure with no packet handed to the network, a valid
address is broadcast once as a magic packet, a local send error on a valid
address yields a transport failure, and the two failure kinds are distinct
constructors the caller can distinguish. -/
theorem C6_wake_validation (mac : String) (send : SendOutcome) :
    (parseMac mac = none →
      (wake_server mac send).result
          = .error (.invalidMac "Incorrect MAC address format")
      ∧ (wake_server mac send).sends = [])
    ∧ (∀ octets, parseMac mac = some octets →
        (wake_server mac send).sends
          = [List.replicate 6 255 ++ (List.replicate 16 octets).flatten]
        ∧ (send = .sent → (wake_server mac send).result = .ok ())
        ∧ (∀ m, send = .sendError m →
            (wake_server mac send).result = .error (.transport m)))
    ∧ (∀ a b : String, WakeError.invalidMac a ≠ WakeError.transport b) := by
  refine ⟨?_, ?_, ?_⟩
  · intro h
    simp [wake_server, send_magic_packet, h]
  · intro octets h
    refine ⟨?_, ?_, ?_⟩
    · cases send <;> simp [wake_server, send_magic_packet, h]
    · rintro rfl
      simp [wake_server, send_magic_packet, h]
    · rintro m rfl
      simp [wake_server, send_magic_packet, h]
  · intro a b h
    cases h

/-- Claim C6, witness: a malformed address sends nothing; a valid address
with a failing send reports a transport failure. -/
theorem C6_wake_validation_witness :
    parseMac "not-a-mac" = none
    ∧ (wake_server "not-a-mac" .sent).sends = []
    ∧ parseMac "AA:BB:CC:DD:EE:FF" = some [170, 187, 204, 221, 238, 255]
    ∧ (wake_server "AA:BB:CC:DD:EE:FF"
        (.sendError "Network is unreachable")).result
      = .error (.transport "Network is unreachable") := by
  refine ⟨by decide, ?_, by decide, ?_⟩
  · exact ((C6_wake_validation "not-a-mac" .sent).1 (by decide)).2
  · exact ((C6_wake_validation "AA:BB:CC:DD:EE:FF"
      (.sendError "Network is unreachable")).2.1 [170, 187, 204, 221, 238, 255]
      (by decide)).2.2 "Network is unreachable" rfl

/-- Claim C7, code bug: with the server up, a generic target, and an
uploaded key whose bytes are not valid UTF-8 (here the single byte `0x80`),
`ssh_key_file.getvalue().decode("utf-8")` raises `UnicodeDecodeError`
before any ssh invocation; nothing catches it, so it escapes `main`,
contradicting the claim that no exception propagates past the
controller. -/
theorem C7_decode_escape :
    (mainModel ⟨false, "10.0.0.5", "AA:BB:CC:DD:EE:FF", 8006⟩
        ⟨.connected, "", "", "", false, .response 200 "", some [128], true,
         "/tmp/ssh_key_abc123", .completed 0 "", false, .sent⟩).escaped
      = some (.unicodeDecodeError "utf-8 codec cannot decode uploaded key bytes")
    ∧ (mainModel ⟨false, "10.0.0.5", "AA:BB:CC:DD:EE:FF", 8006⟩
        ⟨.connected, "", "", "", false, .response 200 "", some [128], true,
         "/tmp/ssh_key_abc123", .completed 0 "", false, .sent⟩).sshCalls
      = [] :=
  ⟨rfl, rfl⟩

/-- Claim C8: the diagnostic texts of both shutdown strategies are
independent of the credential inputs — changing the token id and secret,
the key file path, or the uploaded key bytes (of equal decodability) leaves
every error message unchanged, so no raw credential value flows into the
diagnostics reaching the presentation layer. -/
theorem C8_no_credential_leak (ip : String) (port : Nat)
    (node tid ts tid2 ts2 : String) (net : HttpOutcome) (u kp kp2 : String)
    (runRes : RunOutcome) (key key2 : List Nat) (pressed : Bool) (tmp : String) :
    ((shutdown_proxmox_with_token ip port node tid ts net).errors
      = (shutdown_proxmox_with_token ip port node tid2 ts2 net).errors)
    ∧ ((shutdown_proxmox_with_token ip port node tid ts net).ok
      = (shutdown_proxmox_with_token ip port node tid2 ts2 net).ok)
    ∧ ((shutdown_linux_with_ssh ip u kp runRes).errors
      = (shutdown_linux_with_ssh ip u kp2 runRes).errors)
    ∧ (utf8Valid key = utf8Valid key2 →
        (render_generic_shutdown_ui ip (some key) pressed tmp runRes).uiErrors
        = (render_generic_shutdown_ui ip (some key2) pressed tmp runRes).uiErrors) := by
  refine ⟨?_, ?_, ?_, ?_⟩
  · cases net with
    | response s text =>
      by_cases hs : s = 200 <;> simp [shutdown_proxmox_with_token, hs]
    | raises e => simp [shutdown_proxmox_with_token]
  · cases net with
    | response s text =>
      by_cases hs : s = 200 <;> simp [shutdown_proxmox_with_token, hs]
    | raises e => simp [shutdown_proxmox_with_token]
  · cases runRes with
    | completed rc st =>
      by_cases h : rc = 0 <;> simp [shutdown_linux_with_ssh, h]
    | raises e =>
      simp only [shutdown_linux_with_ssh]
      split
      · rfl
      · split
        · rfl
        · split
          · rfl
          · rfl
  · intro hv
    cases pressed with
    | false => rfl
    | true =>
      by_cases hk : utf8Valid key = true
      · have hk2 : utf8Valid key2 = true := hv ▸ hk
        simp [render_generic_shutdown_ui, hk, hk2]
      · have hk2 : ¬utf8Valid key2 = true := hv ▸ hk
        simp [render_generic_shutdown_ui, hk, hk2]

/-- Claim C8, witness: two different uploaded keys produce identical
failure diagnostics. -/
theorem C8_no_credential_leak_witness :
    utf8Valid [107, 101, 121, 49] = utf8Valid [107, 101, 121, 50]
    ∧ (render_generic_shutdown_ui "10.0.0.5" (some [107, 101, 121, 49]) true
        "/tmp/ssh_key_abc123" (.completed 255 "Permission denied")).uiErrors
      = (render_generic_shutdown_ui "10.0.0.5" (some [107, 101, 121, 50]) true
        "/tmp/ssh_key_abc123" (.completed 255 "Permission denied")).uiErrors := by
  refine ⟨by decide, ?_⟩
  exact (C8_no_credential_leak "10.0.0.5" 8006 "pve1" "root@pam!gate" "secret"
    "root@pam!gate2" "secret2" (.response 200 "") "gatekeeper"
    "/tmp/ssh_key_abc123" "/tmp/ssh_key_def456"
    (.completed 255 "Permission denied") [107, 101, 121, 49]
    [107, 101, 121, 50] true "/tmp/ssh_key_abc123").2.2.2 (by decide)

/-- Claim C9, counterexample: an uploaded key is truthy whatever its
content — garbage text, and even an empty upload — so the trigger is not
disabled and the ssh shutdown call is attempted, contrary to the claim that
an empty or invalid uploaded key disables the trigger with no call
attempted. -/
theorem C9_counterexample :
    (render_generic_shutdown_ui "10.0.0.5"
        (some ("not a valid ssh key".data.map Char.toNat)) true
        "/tmp/ssh_key_abc123"
        (.completed 255 "Load key: invalid format")).sshCalls
      = [⟨sshCommand "10.0.0.5" "gatekeeper" "/tmp/ssh_key_abc123", true, 5⟩]
    ∧ (render_generic_shutdown_ui "10.0.0.5" (some []) true
        "/tmp/ssh_key_abc123"
        (.completed 255 "Load key: invalid format")).sshCalls
      = [⟨sshCommand "10.0.0.5" "gatekeeper" "/tmp/ssh_key_abc123", true, 5⟩] :=
  ⟨rfl, rfl⟩

/-- Claim C9 (amended): only the absence of an uploaded key file disables
the shutdown trigger (no call attempted, no file event); an uploaded key is
never validated — any decodable content, empty or invalid included, leads
to the ssh call being attempted; a key that is not decodable text aborts
with an escaping decode error before any ssh call. -/
theorem C9_amended (ip : String) (pressed : Bool) (tmp : String)
    (runRes : RunOutcome) (key : List Nat) :
    render_generic_shutdown_ui ip none pressed tmp runRes = ⟨[], [], [], [], none⟩
    ∧ (render_generic_shutdown_ui ip (some key) false tmp runRes).sshCalls = []
    ∧ (utf8Valid key = true →
        (render_generic_shutdown_ui ip (some key) true tmp runRes).sshCalls
          = [⟨sshCommand ip "gatekeeper" tmp, true, 5⟩])
    ∧ (utf8Valid key = false →
        (render_generic_shutdown_ui ip (some key) true tmp runRes).sshCalls = []
        ∧ (render_generic_shutdown_ui ip (some key) true tmp runRes).escaped
          ≠ none) := by
  refine ⟨rfl, rfl, ?_, ?_⟩
  · intro hv
    simp only [render_generic_shutdown_ui, hv, if_true]
    exact shutdown_linux_calls ip "gatekeeper" tmp runRes
  · intro hv
    simp [render_generic_shutdown_ui, hv]

/-- Claim C9, witness: a non-UTF-8 upload attempts no ssh call and lets a
decode error escape. -/
theorem C9_amended_witness :
    utf8Valid [128] = false
    ∧ (render_generic_shutdown_ui "10.0.0.5" (some [128]) true
        "/tmp/ssh_key_abc123" (.completed 0 "")).sshCalls = []
    ∧ (render_generic_shutdown_ui "10.0.0.5" (some [128]) true
        "/tmp/ssh_key_abc123" (.completed 0 "")).escaped ≠ none := by
  refine ⟨by decide, ?_, ?_⟩
  · exact ((C9_amended "10.0.0.5" true "/tmp/ssh_key_abc123" (.completed 0 "")
      [128]).2.2.2 (by decide)).1
  · exact ((C9_amended "10.0.0.5" true "/tmp/ssh_key_abc123" (.completed 0 "")
      [128]).2.2.2 (by decide)).2

/-- Claim C10: every call issues its single request to the `urljoin` of
the base with `nodes/{node_name}/status`, with no validation or rejection
of any node name and no percent-encoding: a plain segment is embedded
verbatim, a `/` inside the name is kept verbatim and adds path segments
(`pve/x`), and dot segments change which endpoint the request addresses
(`node1/../node2` targets `node2`; `..` escapes to
`/api2/json/status`). -/
theorem C10_url_embedding (ip : String) (port : Nat) (n tid ts : String)
    (net : HttpOutcome) :
    (shutdown_proxmox_with_token ip port n tid ts net).requests.map
        HttpRequest.url = [shutdown_url ip port n]
    ∧ (plainNodeName n = true →
        shutdown_url ip port n
          = "https://" ++ ip ++ ":" ++ toString port ++ "/api2/json/nodes/"
            ++ n ++ "/status")
    ∧ shutdown_url "10.0.0.5" 8006 "pve/x"
        = "https://10.0.0.5:8006/api2/json/nodes/pve/x/status"
    ∧ shutdown_url "10.0.0.5" 8006 "node1/../node2"
        = "https://10.0.0.5:8006/api2/json/nodes/node2/status"
    ∧ shutdown_url "10.0.0.5" 8006 ".."
        = "https://10.0.0.5:8006/api2/json/status" := by
  refine ⟨?_, ?_, by decide, by decide, by decide⟩
  · cases net with
    | response s text =>
      by_cases hs : s = 200 <;> simp [shutdown_proxmox_with_token, hs]
    | raises e => simp [shutdown_proxmox_with_token]
  · intro h
    exact shutdown_url_plain ip port n h

/-- Claim C10, witness: the plainness implication instantiated at `pve1`,
and the single-request property at a concrete call. -/
theorem C10_url_embedding_witness :
    plainNodeName "pve1" = true
    ∧ shutdown_url "10.0.0.5" 8006 "pve1"
      = "https://" ++ "10.0.0.5" ++ ":" ++ toString 8006 ++ "/api2/json/nodes/"
        ++ "pve1" ++ "/status"
    ∧ (shutdown_proxmox_with_token "10.0.0.5" 8006 "pve1" "root@pam!gate"
        "secret" (.response 200 "")).requests.map HttpRequest.url
      = [shutdown_url "10.0.0.5" 8006 "pve1"] := by
  refine ⟨by decide, ?_, ?_⟩
  · exact (C10_url_embedding "10.0.0.5" 8006 "pve1" "root@pam!gate" "secret"
      (.response 200 "")).2.1 (by decide)
  · exact (C10_url_embedding "10.0.0.5" 8006 "pve1" "root@pam!gate" "secret"
      (.response 200 "")).1
